import Mathlib

/-!
Shallow embedding of `src/databasepy/database.py` (class `__Database` and its
two adapters `SQLiteDatabase` / `PostgreSQLDatabase`).

Strings are modelled by Lean `String`; the two calls to Python `str.replace`
that occur in the source (`query.replace(',)', ')')` in `validate_query` and
`query.replace('INSERT', 'INSERT OR IGNORE')` in `get_insert_query`) are
modelled by structurally recursive functions on `List Char` that implement
exactly Python's semantics: scan left to right, replace each non-overlapping
occurrence, never rescan the emitted replacement text.
-/

namespace Databasepy

/-- Does `pat` occur as a contiguous substring of `s`?  (Helper used to state
side conditions; Python has `pat in s`.) -/
def hasSubstrL : List Char → List Char → Bool
  | [], pat => pat.isEmpty
  | c :: cs, pat => pat.isPrefixOf (c :: cs) || hasSubstrL cs pat

/-- Models the Python expression `query.replace(',)', ')')` from
`__Database.validate_query` (line 110): each left-to-right non-overlapping
occurrence of the two-character pattern `,)` is replaced by `)`. -/
def stripCP : List Char → List Char
  | ',' :: ')' :: rest => ')' :: stripCP rest
  | c :: rest => c :: stripCP rest
  | [] => []

/-- Models the Python expression `query.replace('INSERT', 'INSERT OR IGNORE')`
from `__Database.get_insert_query` (line 87): each left-to-right occurrence of
`INSERT` is replaced by `INSERT OR IGNORE`; the replacement text is not
rescanned. -/
def replaceInsertL : List Char → List Char
  | 'I' :: 'N' :: 'S' :: 'E' :: 'R' :: 'T' :: rest =>
      'I' :: 'N' :: 'S' :: 'E' :: 'R' :: 'T' :: ' ' :: 'O' :: 'R' :: ' ' ::
        'I' :: 'G' :: 'N' :: 'O' :: 'R' :: 'E' :: replaceInsertL rest
  | c :: rest => c :: replaceInsertL rest
  | [] => []

/-- Models Python `str.lower` (ASCII case folding, which is all the source
uses: dialect tokens are ASCII). -/
def pyLower (s : String) : String := String.mk (s.data.map Char.toLower)

/-- `__Database.validate_query` (lines 108-111): the textual patch
`query.replace(',)', ')')`. -/
def validate_query (q : String) : String := String.mk (stripCP q.data)

/-- Python `f'"{field}"'` (lines 75, 80, 81): a field name wrapped in double
quotes. -/
def quoteField (f : String) : String := "\"" ++ f ++ "\""

/-- `fields_placeholder` (line 75): `', '.join([f'"{field}"' for field in fields])`. -/
def fieldsPlaceholder (fs : List String) : String :=
  String.intercalate ", " (fs.map quoteField)

/-- `values_placeholder` (line 76): `', '.join([languages[language] for _ in fields])`. -/
def valuesPlaceholder (ph : String) (fs : List String) : String :=
  String.intercalate ", " (fs.map (fun _ => ph))

/-- The dialect-to-placeholder dictionary lookup `languages[language]`
(line 73): `sqlite` maps to `?`, `postgresql` to `%s`.  Only evaluated after
the assertion has established that the language is one of the two keys. -/
def placeholderFor (lang : String) : String := if lang = "sqlite" then "?" else "%s"

/-- The tail of the base INSERT statement, after the leading keyword. -/
def insertTail (t : String) (fs : List String) (ph : String) : String :=
  " INTO " ++ t ++ " (" ++ fieldsPlaceholder fs ++ ") VALUES (" ++ valuesPlaceholder ph fs ++ ")"

/-- The base statement built at line 77:
`f"INSERT INTO {table_name} ({fields_placeholder}) VALUES ({values_placeholder})"`. -/
def baseInsert (t : String) (fs : List String) (ph : String) : String :=
  "INSERT" ++ insertTail t fs ph

/-- `on_conflict_update_fields` (line 80): the quoted fields not occurring in
`on_conflict_fields`. -/
def updateFields (fs ocf : List String) : List String :=
  (fs.filter (fun f => !ocf.contains f)).map quoteField

/-- `on_conflict_fields_placeholder` (line 81). -/
def conflictKeyPh (ocf : List String) : String :=
  String.intercalate ", " (ocf.map quoteField)

/-- `on_conflict_placeholder` (lines 82-83):
`({update fields}) = ({EXCLUDED.-prefixed update fields})`. -/
def upsertSetPh (fs ocf : List String) : String :=
  "(" ++ String.intercalate ", " (updateFields fs ocf) ++ ") = (" ++
    String.intercalate ", " ((updateFields fs ocf).map (fun f => "EXCLUDED." ++ f)) ++ ")"

/-- The condition `len(set(fields+on_conflict_fields)) == len(on_conflict_fields)`
(lines 86 and 94): the number of distinct names among fields together with the
conflict fields equals the length of the conflict-field list. -/
def noUpdateCond (fs ocf : List String) : Bool :=
  (fs ++ ocf).dedup.length == ocf.length

/-- The body of `get_insert_query` after the assertion (lines 75-103): build
the base INSERT and, when `on_conflict_fields` is truthy (non-empty), attach
the dialect-specific conflict clause.  The final `else: pass` arm (lines
99-100) of the Python dialect dispatch is kept as the identity branch, exactly
as in the source (it is unreachable because of the preceding assertion). -/
def buildConflictQuery (t : String) (fs : List String) (lang : String)
    (ocf : List String) (ig : Bool) : String :=
  let query := baseInsert t fs (placeholderFor lang)
  if ocf.isEmpty then query
  else if lang = "sqlite" then
    if ig || noUpdateCond fs ocf then String.mk (replaceInsertL query.data)
    else query ++ "ON CONFLICT (" ++ conflictKeyPh ocf ++ ") DO UPDATE SET " ++ upsertSetPh fs ocf
  else if lang = "postgresql" then
    if ig || noUpdateCond fs ocf then
      (query ++ "ON CONFLICT (" ++ conflictKeyPh ocf ++ ") DO") ++ " NOTHING"
    else
      (query ++ "ON CONFLICT (" ++ conflictKeyPh ocf ++ ") DO") ++ " UPDATE SET " ++ upsertSetPh fs ocf
  else query

/-- `__Database.get_insert_query` after the `language = language.lower()`
normalisation (lines 73-106): the assertion
`assert language in languages.keys()` is modelled as an `Except.error` (the
Python `AssertionError` message interpolates the `languages` dict repr, which
is abbreviated here to its keys), and on success the built statement is passed
through `validate_query` (line 105) and returned. -/
def get_insert_query_core (t : String) (fs : List String) (lang : String)
    (ocf : List String) (ig : Bool) : Except String String :=
  if lang = "sqlite" ∨ lang = "postgresql" then
    Except.ok (validate_query (buildConflictQuery t fs lang ocf ig))
  else Except.error "Valid languages are sqlite, postgresql"

/-- `__Database.get_insert_query` (lines 70-106).  `on_conflict_fields=None`
and `on_conflict_fields=[]` are both falsy in the Python `if on_conflict_fields:`
test, so the optional argument is modelled as a plain list whose emptiness is
tested. -/
def get_insert_query (t : String) (fs : List String) (language : String)
    (ocf : List String) (ig : Bool) : Except String String :=
  get_insert_query_core t fs (pyLower language) ocf ig

end Databasepy

namespace Databasepy

lemma data_append (s t : String) : (s ++ t).data = s.data ++ t.data := by
  cases s; cases t; rfl

lemma mk_append (u v : String) : String.mk (u.data ++ v.data) = u ++ v := by
  cases u; cases v; rfl

lemma hasSubstrL_cons (c : Char) (cs pat : List Char) :
    hasSubstrL (c :: cs) pat = (pat.isPrefixOf (c :: cs) || hasSubstrL cs pat) := rfl

lemma stripCP_cons (c : Char) (rest : List Char)
    (hne : ∀ r, c = ',' → rest = ')' :: r → False) :
    stripCP (c :: rest) = c :: stripCP rest := by
  rw [stripCP.eq_def]
  split
  · rename_i r heq
    injection heq with h1 h2
    exact absurd h2 (fun h => hne r h1 h)
  · rename_i c' rest' heq
    injection heq with h1 h2
    rw [h1, h2]
  · rename_i heq
    exact absurd heq (by simp)

lemma stripCP_eq_self (s : List Char) (h : hasSubstrL s [',', ')'] = false) :
    stripCP s = s := by
  induction s using stripCP.induct with
  | case1 rest ih =>
    simp [hasSubstrL, List.isPrefixOf] at h
  | case2 c rest hne ih =>
    rw [hasSubstrL_cons, Bool.or_eq_false_iff] at h
    rw [stripCP_cons c rest hne, ih h.2]
  | case3 => rfl

lemma replaceInsertL_cons (c : Char) (rest : List Char)
    (hne : ∀ r, c = 'I' → rest = 'N' :: 'S' :: 'E' :: 'R' :: 'T' :: r → False) :
    replaceInsertL (c :: rest) = c :: replaceInsertL rest := by
  rw [replaceInsertL.eq_def]
  split
  · rename_i r heq
    injection heq with h1 h2
    exact absurd h2 (fun h => hne r h1 h)
  · rename_i c' rest' heq
    injection heq with h1 h2
    rw [h1, h2]
  · rename_i heq
    exact absurd heq (by simp)

lemma replaceInsertL_eq_self (s : List Char)
    (h : hasSubstrL s ['I', 'N', 'S', 'E', 'R', 'T'] = false) :
    replaceInsertL s = s := by
  induction s using replaceInsertL.induct with
  | case1 rest ih =>
    simp [hasSubstrL, List.isPrefixOf] at h
  | case2 c rest hne ih =>
    rw [hasSubstrL_cons, Bool.or_eq_false_iff] at h
    rw [replaceInsertL_cons c rest hne, ih h.2]
  | case3 => rfl

lemma replaceInsertL_head (tail : List Char)
    (h : hasSubstrL tail ['I', 'N', 'S', 'E', 'R', 'T'] = false) :
    replaceInsertL ('I' :: 'N' :: 'S' :: 'E' :: 'R' :: 'T' :: tail) =
      'I' :: 'N' :: 'S' :: 'E' :: 'R' :: 'T' :: ' ' :: 'O' :: 'R' :: ' ' ::
        'I' :: 'G' :: 'N' :: 'O' :: 'R' :: 'E' :: tail := by
  rw [replaceInsertL, replaceInsertL_eq_self tail h]

lemma validate_query_eq_self (s : String) (h : hasSubstrL s.data [',', ')'] = false) :
    validate_query s = s := by
  unfold validate_query
  rw [stripCP_eq_self s.data h]

end Databasepy

namespace Databasepy

lemma isEmpty_false_of_ne {α : Type} (l : List α) (h : l ≠ []) : l.isEmpty = false := by
  cases l
  · exact absurd rfl h
  · rfl

lemma buildCQ_sqlite_ignore (t : String) (fs ocf : List String) (ig : Bool)
    (hocf : ocf ≠ []) (hcase : (ig || noUpdateCond fs ocf) = true) :
    buildConflictQuery t fs "sqlite" ocf ig =
      String.mk (replaceInsertL (baseInsert t fs "?").data) := by
  simp [buildConflictQuery, isEmpty_false_of_ne ocf hocf, hcase, placeholderFor]

lemma buildCQ_sqlite_upsert (t : String) (fs ocf : List String) (ig : Bool)
    (hocf : ocf ≠ []) (hcase : (ig || noUpdateCond fs ocf) = false) :
    buildConflictQuery t fs "sqlite" ocf ig =
      baseInsert t fs "?" ++ "ON CONFLICT (" ++ conflictKeyPh ocf ++ ") DO UPDATE SET " ++
        upsertSetPh fs ocf := by
  simp [buildConflictQuery, isEmpty_false_of_ne ocf hocf, hcase, placeholderFor]

lemma buildCQ_pg_nothing (t : String) (fs ocf : List String) (ig : Bool)
    (hocf : ocf ≠ []) (hcase : (ig || noUpdateCond fs ocf) = true) :
    buildConflictQuery t fs "postgresql" ocf ig =
      (baseInsert t fs "%s" ++ "ON CONFLICT (" ++ conflictKeyPh ocf ++ ") DO") ++ " NOTHING" := by
  simp [buildConflictQuery, isEmpty_false_of_ne ocf hocf, hcase, placeholderFor]

lemma buildCQ_pg_upsert (t : String) (fs ocf : List String) (ig : Bool)
    (hocf : ocf ≠ []) (hcase : (ig || noUpdateCond fs ocf) = false) :
    buildConflictQuery t fs "postgresql" ocf ig =
      (baseInsert t fs "%s" ++ "ON CONFLICT (" ++ conflictKeyPh ocf ++ ") DO") ++ " UPDATE SET " ++
        upsertSetPh fs ocf := by
  simp [buildConflictQuery, isEmpty_false_of_ne ocf hocf, hcase, placeholderFor]

lemma mk_replaceInsert (t : String) (fs : List String)
    (h1 : hasSubstrL (insertTail t fs "?").data ['I', 'N', 'S', 'E', 'R', 'T'] = false) :
    String.mk (replaceInsertL (baseInsert t fs "?").data) =
      "INSERT OR IGNORE" ++ insertTail t fs "?" := by
  have hI : "INSERT".data = ['I', 'N', 'S', 'E', 'R', 'T'] := by decide
  have hOI : "INSERT OR IGNORE".data =
      ['I', 'N', 'S', 'E', 'R', 'T', ' ', 'O', 'R', ' ', 'I', 'G', 'N', 'O', 'R', 'E'] := by
    decide
  have hd : (baseInsert t fs "?").data =
      'I' :: 'N' :: 'S' :: 'E' :: 'R' :: 'T' :: (insertTail t fs "?").data := by
    unfold baseInsert
    rw [data_append, hI]
    rfl
  rw [hd, replaceInsertL_head _ h1, ← mk_append "INSERT OR IGNORE" (insertTail t fs "?"),
    hOI]
  rfl

lemma pyLower_sqlite : pyLower "sqlite" = "sqlite" := by decide

lemma pyLower_pg : pyLower "postgresql" = "postgresql" := by decide

/-- C1: for a non-empty conflict-field list and the two recognized dialects,
when `ignore_on_conflict` is true or the number of distinct names in
fields together with conflict fields equals the length of the conflict-field
list, the sqlite statement has its leading INSERT rewritten to
INSERT OR IGNORE and the postgresql statement gets an appended
ON CONFLICT (...) DO NOTHING clause; otherwise both dialects get the upsert
clause ON CONFLICT (conflict fields) DO UPDATE SET (update fields) =
(EXCLUDED-qualified update fields), where the update fields are exactly the
fields not in the conflict-field list.  The substring side conditions say the
caller-chosen names do not themselves contain the text INSERT or the
artifact pattern that the final textual patch rewrites. -/
theorem getInsertQuery_onConflict_cases
    (t : String) (fs ocf : List String) (ig : Bool)
    (hocf : ocf ≠ [])
    (h1 : hasSubstrL (insertTail t fs "?").data ['I', 'N', 'S', 'E', 'R', 'T'] = false)
    (h2 : hasSubstrL ("INSERT OR IGNORE" ++ insertTail t fs "?").data [',', ')'] = false)
    (h3 : hasSubstrL (baseInsert t fs "?" ++ "ON CONFLICT (" ++ conflictKeyPh ocf ++
        ") DO UPDATE SET " ++ upsertSetPh fs ocf).data [',', ')'] = false)
    (h4 : hasSubstrL ((baseInsert t fs "%s" ++ "ON CONFLICT (" ++ conflictKeyPh ocf ++
        ") DO") ++ " NOTHING").data [',', ')'] = false)
    (h5 : hasSubstrL ((baseInsert t fs "%s" ++ "ON CONFLICT (" ++ conflictKeyPh ocf ++
        ") DO") ++ " UPDATE SET " ++ upsertSetPh fs ocf).data [',', ')'] = false) :
    ((ig || noUpdateCond fs ocf) = true →
      get_insert_query t fs "sqlite" ocf ig =
        Except.ok ("INSERT OR IGNORE" ++ insertTail t fs "?") ∧
      get_insert_query t fs "postgresql" ocf ig =
        Except.ok ((baseInsert t fs "%s" ++ "ON CONFLICT (" ++ conflictKeyPh ocf ++
          ") DO") ++ " NOTHING")) ∧
    ((ig || noUpdateCond fs ocf) = false →
      get_insert_query t fs "sqlite" ocf ig =
        Except.ok (baseInsert t fs "?" ++ "ON CONFLICT (" ++ conflictKeyPh ocf ++
          ") DO UPDATE SET " ++ upsertSetPh fs ocf) ∧
      get_insert_query t fs "postgresql" ocf ig =
        Except.ok ((baseInsert t fs "%s" ++ "ON CONFLICT (" ++ conflictKeyPh ocf ++
          ") DO") ++ " UPDATE SET " ++ upsertSetPh fs ocf)) := by
  constructor
  · intro hcase
    constructor
    · show get_insert_query_core t fs (pyLower "sqlite") ocf ig = _
      rw [pyLower_sqlite]
      unfold get_insert_query_core
      rw [if_pos (Or.inl rfl), buildCQ_sqlite_ignore t fs ocf ig hocf hcase,
        mk_replaceInsert t fs h1, validate_query_eq_self _ h2]
    · show get_insert_query_core t fs (pyLower "postgresql") ocf ig = _
      rw [pyLower_pg]
      unfold get_insert_query_core
      rw [if_pos (Or.inr rfl), buildCQ_pg_nothing t fs ocf ig hocf hcase,
        validate_query_eq_self _ h4]
  · intro hcase
    constructor
    · show get_insert_query_core t fs (pyLower "sqlite") ocf ig = _
      rw [pyLower_sqlite]
      unfold get_insert_query_core
      rw [if_pos (Or.inl rfl), buildCQ_sqlite_upsert t fs ocf ig hocf hcase,
        validate_query_eq_self _ h3]
    · show get_insert_query_core t fs (pyLower "postgresql") ocf ig = _
      rw [pyLower_pg]
      unfold get_insert_query_core
      rw [if_pos (Or.inr rfl), buildCQ_pg_upsert t fs ocf ig hocf hcase,
        validate_query_eq_self _ h5]

end Databasepy

namespace Databasepy

/-- Scalar cell values as they reach `validate_insert_values` (line 113):
Python ints, finite floats (represented by a rational), the float NaN,
strings, date strings, and the null marker `None`. -/
inductive Scalar where
  | intVal : Int → Scalar
  | floatVal : Rat → Scalar
  | nanVal : Scalar
  | strVal : String → Scalar
  | dateVal : String → Scalar
  | noneVal : Scalar
deriving DecidableEq

/-- Python `isinstance(v, (int, float))` (line 117): ints and floats
(including the float NaN) are numeric; everything else is not. -/
def isNumericScalar : Scalar → Bool
  | Scalar.intVal _ => true
  | Scalar.floatVal _ => true
  | Scalar.nanVal => true
  | _ => false

/-- Python `math.isnan(v)` (line 117): true exactly on the float NaN, false on
other numerics, and a `TypeError` on non-numeric arguments. -/
def pyIsnan : Scalar → Except String Bool
  | Scalar.intVal _ => Except.ok false
  | Scalar.floatVal _ => Except.ok false
  | Scalar.nanVal => Except.ok true
  | _ => Except.error "TypeError: must be real number"

/-- One entry of the comprehension at lines 117-118:
`None if isinstance(values[i][j],(int,float)) and isnan(values[i][j]) else values[i][j]`.
The `and` short-circuits, so `isnan` is only evaluated on numeric values. -/
def sanitizeEntry (v : Scalar) : Except String Scalar :=
  if isNumericScalar v then
    match pyIsnan v with
    | Except.error e => Except.error e
    | Except.ok b => Except.ok (if b then Scalar.noneVal else v)
  else Except.ok v

/-- The inner list comprehension of `validate_insert_values` over one row,
evaluated left to right with exception propagation. -/
def validateRow : List Scalar → Except String (List Scalar)
  | [] => Except.ok []
  | v :: vs =>
    match sanitizeEntry v with
    | Except.error e => Except.error e
    | Except.ok w =>
      match validateRow vs with
      | Except.error e => Except.error e
      | Except.ok ws => Except.ok (w :: ws)

/-- `__Database.validate_insert_values` (lines 113-121): the nested
comprehension over all rows. -/
def validate_insert_values : List (List Scalar) → Except String (List (List Scalar))
  | [] => Except.ok []
  | r :: rs =>
    match validateRow r with
    | Except.error e => Except.error e
    | Except.ok w =>
      match validate_insert_values rs with
      | Except.error e => Except.error e
      | Except.ok ws => Except.ok (w :: ws)

/-- The sanitization contract as the spec words it (section 4.1): a numeric
value satisfying is-NaN becomes the null marker; every other value passes
through unchanged.  Stated independently of the source comprehension so that
the two can be compared. -/
def sanitizeSpecEntry (v : Scalar) : Scalar :=
  if isNumericScalar v = true ∧ v = Scalar.nanVal then Scalar.noneVal else v

lemma sanitizeEntry_ok (v : Scalar) : sanitizeEntry v = Except.ok (sanitizeSpecEntry v) := by
  cases v <;> rfl

lemma validateRow_ok (r : List Scalar) : validateRow r = Except.ok (r.map sanitizeSpecEntry) := by
  induction r with
  | nil => rfl
  | cons v vs ih => rw [validateRow, sanitizeEntry_ok, ih]; rfl

lemma validate_insert_values_ok (values : List (List Scalar)) :
    validate_insert_values values =
      Except.ok (values.map (fun row => row.map sanitizeSpecEntry)) := by
  induction values with
  | nil => rfl
  | cons r rs ih => rw [validate_insert_values, validateRow_ok, ih]; rfl

end Databasepy

namespace Databasepy

/-- Ledger of session and cursor acquisitions and releases, used to model the
resource discipline of the adapter methods (their `try:`/`finally:` blocks).
The backend itself is abstracted into injected `Except` outcomes. -/
structure ResLog where
  connOpens : Nat
  connCloses : Nat
  curOpens : Nat
  curCloses : Nat
deriving DecidableEq

def initLog : ResLog := ⟨0, 0, 0, 0⟩

/-- `self.get_connection()`. -/
def openConn (l : ResLog) : ResLog := ⟨l.connOpens + 1, l.connCloses, l.curOpens, l.curCloses⟩

/-- `connection.close()`. -/
def closeConn (l : ResLog) : ResLog := ⟨l.connOpens, l.connCloses + 1, l.curOpens, l.curCloses⟩

/-- `connection.cursor()`. -/
def openCursor (l : ResLog) : ResLog := ⟨l.connOpens, l.connCloses, l.curOpens + 1, l.curCloses⟩

/-- `cursor.close()`. -/
def closeCursor (l : ResLog) : ResLog := ⟨l.connOpens, l.connCloses, l.curOpens, l.curCloses + 1⟩

/-- A Python `try: body finally: fin` block: the finaliser runs on the state
regardless of whether the body produced a value or an error. -/
def tryFinally {α σ : Type} (body : σ → Except String α × σ) (fin : σ → σ)
    (s : σ) : Except String α × σ :=
  let r := body s
  (r.1, fin r.2)

/-- `__Database.select_query` (lines 19-27): inside the `try`, open the
connection and run `validate_query` + `read_sql` (whose combined outcome is
the injected `execOutcome`); the `finally` closes the connection. -/
def select_query_model {α : Type} (execOutcome : Except String α) :
    Except String α × ResLog :=
  tryFinally (fun s => (execOutcome, openConn s)) closeConn initLog

/-- The statement loop of `__Database.query` (lines 42-46): execute each
`;`-separated statement in order, fetch its rows, and stop at the first
failure. -/
def runStmts {α : Type} (exec : String → Except String α) :
    List String → Except String (List α)
  | [] => Except.ok []
  | q :: qs =>
    match exec q with
    | Except.error e => Except.error e
    | Except.ok r =>
      match runStmts exec qs with
      | Except.error e => Except.error e
      | Except.ok rs => Except.ok (r :: rs)

/-- Python `query.split(';')` (line 42): split a character list at every
semicolon, keeping empty groups. -/
def splitSemi : List Char → List (List Char)
  | [] => [[]]
  | ';' :: rest => [] :: splitSemi rest
  | c :: rest =>
    match splitSemi rest with
    | [] => [[c]]
    | g :: gs => (c :: g) :: gs

/-- `query.split(';')` on strings. -/
def pySplitSemi (s : String) : List String := (splitSemi s.data).map String.mk

/-- `__Database.query` (lines 36-50): the query is passed through
`validate_query` first (line 37); the connection is opened before the `try`;
the loop over `query.split(';')` runs inside it; the `finally` closes the
connection. -/
def query_model {α : Type} (q : String) (exec : String → Except String α) :
    Except String (List α) × ResLog :=
  let s0 := openConn initLog
  tryFinally (fun s => (runStmts exec (pySplitSemi (validate_query q)), s)) closeConn s0

/-- `SQLiteDatabase.insert` (lines 174-184): values are sanitized and the
statement built (outcome `queryRes`) before the `try`; inside it the
connection is opened and `executemany` runs; the `finally` closes the
connection. -/
def sqlite_insert (values : List (List Scalar)) (queryRes : Except String String)
    (exec : String → Except String Unit) : Except String Unit × ResLog :=
  match validate_insert_values values with
  | Except.error e => (Except.error e, initLog)
  | Except.ok _ =>
    match queryRes with
    | Except.error e => (Except.error e, initLog)
    | Except.ok q => tryFinally (fun s => (exec q, openConn s)) closeConn initLog

/-- `PostgreSQLDatabase.insert` (lines 233-246): like the sqlite path, but a
cursor is opened after the connection and the `finally` closes the cursor and
then the connection. -/
def pg_insert (values : List (List Scalar)) (queryRes : Except String String)
    (exec : String → Except String Unit) : Except String Unit × ResLog :=
  match validate_insert_values values with
  | Except.error e => (Except.error e, initLog)
  | Except.ok _ =>
    match queryRes with
    | Except.error e => (Except.error e, initLog)
    | Except.ok q =>
      tryFinally (fun s => (exec q, openCursor (openConn s)))
        (fun s => closeConn (closeCursor s)) initLog

/-- `SQLiteDatabase.get_schema` (lines 163-172): the catalog query runs inside
a `try` whose `finally` closes the connection; the fetched definition texts
are joined with a blank line after the block. -/
def get_schema_model (execOutcome : Except String (List String)) :
    Except String String × ResLog :=
  let r := tryFinally (fun s => (execOutcome, openConn s)) closeConn initLog
  (r.1.map (String.intercalate "\n\n"), r.2)

/-- Python `filepath.split('.')` (line 130): split a character list at every
dot, keeping empty groups. -/
def splitDot : List Char → List (List Char)
  | [] => [[]]
  | '.' :: rest => [] :: splitDot rest
  | c :: rest =>
    match splitDot rest with
    | [] => [[c]]
    | g :: gs => (c :: g) :: gs

/-- `filepath.split('.')[-1]` (line 130): the last dot-separated component. -/
def lastExt (fp : String) : String := String.mk ((splitDot fp.data).getLastD [])

/-- `__Database.read_table` (lines 123-138): dispatch on the extension through
the `reader` dict (`csv`, `pkl`, `parquet`); an unregistered extension raises
a `TypeError` (the Python message also interpolates the repr of the reader
functions, which is not deterministic text and is omitted here).  The three
pandas readers are abstracted as injected loader functions. -/
def read_table {α : Type} (loadCsv loadPkl loadParquet : String → α) (fp : String) :
    Except String α :=
  let extension := lastExt fp
  if extension = "csv" then Except.ok (loadCsv fp)
  else if extension = "pkl" then Except.ok (loadPkl fp)
  else if extension = "parquet" then Except.ok (loadParquet fp)
  else Except.error ("Unsupported file extension: ." ++ extension)

/-- `__Database.insert_file` (lines 52-59): read the table, then hand the
frame and table name to `self.insert`; the returned pair stands for the
insert call that would be made.  If reading fails no insert happens. -/
def insert_file {α : Type} (loadCsv loadPkl loadParquet : String → α)
    (fp tbl : String) : Except String (α × String) :=
  match read_table loadCsv loadPkl loadParquet fp with
  | Except.error e => Except.error e
  | Except.ok df => Except.ok (df, tbl)

end Databasepy

namespace Databasepy

lemma stripCP_sublist (s : List Char) : List.Sublist (stripCP s) s := by
  induction s using stripCP.induct with
  | case1 rest ih =>
    show List.Sublist (')' :: stripCP rest) (',' :: ')' :: rest)
    exact (ih.cons₂ ')').cons ','
  | case2 c rest hne ih =>
    rw [stripCP_cons c rest hne]
    exact ih.cons₂ c
  | case3 => exact List.Sublist.refl []

lemma stripCP_count (a : Char) (ha : a ≠ ',') (s : List Char) :
    List.count a (stripCP s) = List.count a s := by
  induction s using stripCP.induct with
  | case1 rest ih =>
    show List.count a (')' :: stripCP rest) = List.count a (',' :: ')' :: rest)
    rw [List.count_cons, List.count_cons, List.count_cons, ih]
    have : (',' == a) = false := by
      cases hb : ',' == a
      · rfl
      · exact absurd (beq_iff_eq.mp hb).symm ha
    rw [this]
    simp
  | case2 c rest hne ih =>
    rw [stripCP_cons c rest hne, List.count_cons, List.count_cons, ih]
  | case3 => rfl

lemma stripCP_head_eq (rest : List Char) (h2 : ∀ r, rest = ',' :: ')' :: r → False) :
    (stripCP rest).head? = rest.head? := by
  cases rest with
  | nil => rfl
  | cons d r =>
    rw [stripCP_cons d r (fun r' hd htl => h2 r' (by rw [hd, htl]))]
    rfl

lemma stripCP_no_cp (s : List Char) (h : hasSubstrL s [',', ',', ')'] = false) :
    hasSubstrL (stripCP s) [',', ')'] = false := by
  induction s using stripCP.induct with
  | case1 rest ih =>
    have h' : hasSubstrL rest [',', ',', ')'] = false := by
      rw [hasSubstrL_cons, Bool.or_eq_false_iff] at h
      have hb := h.2
      rw [hasSubstrL_cons, Bool.or_eq_false_iff] at hb
      exact hb.2
    show hasSubstrL (')' :: stripCP rest) [',', ')'] = false
    rw [hasSubstrL_cons, Bool.or_eq_false_iff]
    refine ⟨by simp [List.isPrefixOf], ih h'⟩
  | case2 c rest hne ih =>
    rw [hasSubstrL_cons, Bool.or_eq_false_iff] at h
    obtain ⟨ha, hb⟩ := h
    rw [stripCP_cons c rest hne, hasSubstrL_cons, Bool.or_eq_false_iff]
    refine ⟨?_, ih hb⟩
    by_cases hc : c = ','
    · subst hc
      have hr2 : ∀ r, rest = ',' :: ')' :: r → False := by
        intro r hr
        rw [hr] at ha
        simp [List.isPrefixOf] at ha
      have hh := stripCP_head_eq rest hr2
      cases hs : stripCP rest with
      | nil => simp [List.isPrefixOf]
      | cons d ds =>
        have hd1 : rest.head? = some d := by rw [← hh, hs]; rfl
        have hd : d ≠ ')' := by
          intro hdp
          cases rest with
          | nil => exact absurd hd1 (by simp)
          | cons e es =>
            have : e = d := by
              rw [List.head?_cons] at hd1
              exact Option.some.inj hd1
            exact hne es (rfl) (by rw [this, hdp])
        have : (')' == d) = false := by
          cases hb2 : ')' == d
          · rfl
          · exact absurd (beq_iff_eq.mp hb2).symm hd
        simp [List.isPrefixOf, this]
    · have : (',' == c) = false := by
        cases hb2 : ',' == c
        · rfl
        · exact absurd (beq_iff_eq.mp hb2).symm hc
      simp [List.isPrefixOf, this]
  | case3 => rfl

end Databasepy

namespace Databasepy

lemma buildCQ_plain (t : String) (fs : List String) (lang : String) (ig : Bool) :
    buildConflictQuery t fs lang [] ig = baseInsert t fs (placeholderFor lang) := by
  simp [buildConflictQuery]

/-- C1 witness: the four conflict-resolution outputs at the concrete call
used throughout the spec examples. -/
theorem getInsertQuery_onConflict_cases_witness :
    (["a"] : List String) ≠ [] ∧
    get_insert_query "t" ["a", "b"] "sqlite" ["a"] true =
      Except.ok "INSERT OR IGNORE INTO t (\"a\", \"b\") VALUES (?, ?)" ∧
    get_insert_query "t" ["a", "b"] "postgresql" ["a"] true =
      Except.ok "INSERT INTO t (\"a\", \"b\") VALUES (%s, %s)ON CONFLICT (\"a\") DO NOTHING" ∧
    get_insert_query "t" ["a", "b"] "sqlite" ["a"] false =
      Except.ok
        "INSERT INTO t (\"a\", \"b\") VALUES (?, ?)ON CONFLICT (\"a\") DO UPDATE SET (\"b\") = (EXCLUDED.\"b\")" ∧
    get_insert_query "t" ["a", "b"] "postgresql" ["a"] false =
      Except.ok
        "INSERT INTO t (\"a\", \"b\") VALUES (%s, %s)ON CONFLICT (\"a\") DO UPDATE SET (\"b\") = (EXCLUDED.\"b\")" := by
  have hIg := getInsertQuery_onConflict_cases "t" ["a", "b"] ["a"] true (by decide)
    (by decide) (by decide) (by decide) (by decide) (by decide)
  have hUp := getInsertQuery_onConflict_cases "t" ["a", "b"] ["a"] false (by decide)
    (by decide) (by decide) (by decide) (by decide) (by decide)
  refine ⟨by decide, ?_, ?_, ?_, ?_⟩
  · exact ((hIg.1 (by decide)).1).trans (by rfl)
  · exact ((hIg.1 (by decide)).2).trans (by rfl)
  · exact ((hUp.2 (by decide)).1).trans (by rfl)
  · exact ((hUp.2 (by decide)).2).trans (by rfl)

/-- C3: for a plain insert (no conflict fields) the placeholder token is
selected by dialect, one per field, the field names individually quoted and
joined in order; in particular the two concrete statements of the spec are
produced exactly.  The side condition states that the chosen names do not
contain the artifact pattern that the final textual patch rewrites. -/
theorem getInsertQuery_plain_insert :
    (∀ (t : String) (fs : List String),
      hasSubstrL (baseInsert t fs "?").data [',', ')'] = false →
      get_insert_query t fs "sqlite" [] false = Except.ok (baseInsert t fs "?")) ∧
    (∀ (t : String) (fs : List String),
      hasSubstrL (baseInsert t fs "%s").data [',', ')'] = false →
      get_insert_query t fs "postgresql" [] false = Except.ok (baseInsert t fs "%s")) ∧
    get_insert_query "t" ["a", "b"] "sqlite" [] false =
      Except.ok "INSERT INTO t (\"a\", \"b\") VALUES (?, ?)" ∧
    get_insert_query "t" ["a", "b"] "postgresql" [] false =
      Except.ok "INSERT INTO t (\"a\", \"b\") VALUES (%s, %s)" := by
  refine ⟨?_, ?_, by rfl, by rfl⟩
  · intro t fs h
    show get_insert_query_core t fs (pyLower "sqlite") [] false = _
    rw [pyLower_sqlite]
    unfold get_insert_query_core
    rw [if_pos (Or.inl rfl), buildCQ_plain,
      show placeholderFor "sqlite" = "?" from rfl, validate_query_eq_self _ h]
  · intro t fs h
    show get_insert_query_core t fs (pyLower "postgresql") [] false = _
    rw [pyLower_pg]
    unfold get_insert_query_core
    rw [if_pos (Or.inr rfl), buildCQ_plain,
      show placeholderFor "postgresql" = "%s" from rfl, validate_query_eq_self _ h]

/-- C3 witness: the general plain-insert statements applied at the concrete
field list of the spec examples. -/
theorem getInsertQuery_plain_insert_witness :
    (hasSubstrL (baseInsert "t" ["a", "b"] "?").data [',', ')'] = false ∧
      get_insert_query "t" ["a", "b"] "sqlite" [] false =
        Except.ok (baseInsert "t" ["a", "b"] "?")) ∧
    (hasSubstrL (baseInsert "t" ["a", "b"] "%s").data [',', ')'] = false ∧
      get_insert_query "t" ["a", "b"] "postgresql" [] false =
        Except.ok (baseInsert "t" ["a", "b"] "%s")) :=
  ⟨⟨by decide, getInsertQuery_plain_insert.1 "t" ["a", "b"] (by decide)⟩,
    ⟨by decide, getInsertQuery_plain_insert.2.1 "t" ["a", "b"] (by decide)⟩⟩

/-- C4: an unrecognized dialect token makes `get_insert_query` fail with the
invalid-dialect error (the Python assertion), and an insert whose statement
construction failed opens neither a connection nor a cursor: the resource
ledger stays at its initial all-zero state. -/
theorem getInsertQuery_invalid_dialect
    (t : String) (fs : List String) (lang : String) (ocf : List String) (ig : Bool)
    (h1 : pyLower lang ≠ "sqlite") (h2 : pyLower lang ≠ "postgresql") :
    get_insert_query t fs lang ocf ig =
      Except.error "Valid languages are sqlite, postgresql" ∧
    (∀ (values : List (List Scalar)) (e : String) (exec : String → Except String Unit),
      (sqlite_insert values (Except.error e) exec).2 = initLog ∧
      (pg_insert values (Except.error e) exec).2 = initLog) := by
  constructor
  · unfold get_insert_query get_insert_query_core
    rw [if_neg (by rintro (h | h) <;> [exact h1 h; exact h2 h])]
  · intro values e exec
    constructor
    · unfold sqlite_insert
      rw [validate_insert_values_ok]
    · unfold pg_insert
      rw [validate_insert_values_ok]

/-- C4 witness: the invalid-dialect theorem applied at the token `mysql`. -/
theorem getInsertQuery_invalid_dialect_witness :
    (pyLower "mysql" ≠ "sqlite" ∧ pyLower "mysql" ≠ "postgresql") ∧
    get_insert_query "t" ["a", "b"] "mysql" ["a"] false =
      Except.error "Valid languages are sqlite, postgresql" :=
  ⟨⟨by decide, by decide⟩,
    (getInsertQuery_invalid_dialect "t" ["a", "b"] "mysql" ["a"] false
      (by decide) (by decide)).1⟩

end Databasepy

namespace Databasepy

/-- C2: the sanitizer never raises and returns exactly the row batch with
every numeric NaN entry replaced by the null marker and every other entry
(ints, finite floats, strings, dates, nulls) unchanged: it agrees with the
specification-level `sanitizeSpecEntry` applied pointwise. -/
theorem validateInsertValues_nan_to_null (values : List (List Scalar)) :
    validate_insert_values values =
      Except.ok (values.map (fun row => row.map sanitizeSpecEntry)) ∧
    (∀ v : Scalar, isNumericScalar v = false → sanitizeSpecEntry v = v) ∧
    sanitizeSpecEntry Scalar.nanVal = Scalar.noneVal := by
  refine ⟨validate_insert_values_ok values, ?_, by rfl⟩
  intro v hv
  unfold sanitizeSpecEntry
  rw [if_neg]
  rintro ⟨h1, h2⟩
  rw [hv] at h1
  exact Bool.false_ne_true h1

/-- C2 witness: the sanitizer applied to a concrete row holding a NaN and a
string, discharging the non-numeric pass-through hypothesis at a string
value. -/
theorem validateInsertValues_nan_to_null_witness :
    validate_insert_values [[Scalar.nanVal, Scalar.strVal "s"]] =
      Except.ok [[Scalar.noneVal, Scalar.strVal "s"]] ∧
    (isNumericScalar (Scalar.strVal "s") = false ∧
      sanitizeSpecEntry (Scalar.strVal "s") = Scalar.strVal "s") :=
  ⟨(validateInsertValues_nan_to_null [[Scalar.nanVal, Scalar.strVal "s"]]).1.trans (by rfl),
    by decide,
    (validateInsertValues_nan_to_null []).2.1 (Scalar.strVal "s") (by decide)⟩

/-- C9: sanitization preserves the shape of its input: same number of rows
and, row by row, the same number of entries. -/
theorem validateInsertValues_shape (values out : List (List Scalar))
    (h : validate_insert_values values = Except.ok out) :
    out.length = values.length ∧ out.map List.length = values.map List.length := by
  rw [validate_insert_values_ok] at h
  injection h with h'
  subst h'
  constructor
  · rw [List.length_map]
  · rw [List.map_map]
    congr 1
    funext row
    simp [Function.comp, List.length_map]

/-- C9 witness: the shape theorem applied to a concrete two-row batch. -/
theorem validateInsertValues_shape_witness :
    validate_insert_values [[Scalar.nanVal, Scalar.intVal 3], [Scalar.strVal "x"]] =
      Except.ok [[Scalar.noneVal, Scalar.intVal 3], [Scalar.strVal "x"]] ∧
    ([[Scalar.noneVal, Scalar.intVal 3], [Scalar.strVal "x"]] : List (List Scalar)).length =
      ([[Scalar.nanVal, Scalar.intVal 3], [Scalar.strVal "x"]] : List (List Scalar)).length ∧
    ([[Scalar.noneVal, Scalar.intVal 3], [Scalar.strVal "x"]] : List (List Scalar)).map
        List.length =
      ([[Scalar.nanVal, Scalar.intVal 3], [Scalar.strVal "x"]] : List (List Scalar)).map
        List.length :=
  ⟨by rfl, validateInsertValues_shape _ _ (by rfl)⟩

/-- C5 counterexample: on the input `,,)` the patch leaves the string `,)`,
which still contains the substring `,)` — removing the matched comma creates
a new occurrence that the single pass does not revisit. -/
theorem validateQuery_comma_paren_counterexample :
    validate_query ",,)" = ",)" ∧
    hasSubstrL (validate_query ",,)").data [',', ')'] = true := by
  exact ⟨by rfl, by decide⟩

/-- C5 (amended): `validate_query` removes the comma of each left-to-right
non-overlapping occurrence of the pattern and alters no other character (the
result is a sublist of the input preserving every non-comma character count);
the substring is guaranteed gone whenever the input does not contain the
overlapping artifact `,,)`.  Every statement returned by `get_insert_query`
is exactly `validate_query` of the statement the builder assembled, and
`query` executes exactly the `;`-split pieces of `validate_query` of its
input; the two closing equations show the patch observably rewriting a built
insert statement and an executed query. -/
theorem validateQuery_patch_props :
    (∀ s : String, List.Sublist (validate_query s).data s.data) ∧
    (∀ (s : String) (c : Char), c ≠ ',' →
      List.count c (validate_query s).data = List.count c s.data) ∧
    (∀ s : String, hasSubstrL s.data [',', ',', ')'] = false →
      hasSubstrL (validate_query s).data [',', ')'] = false) ∧
    (∀ (t : String) (fs : List String) (lang : String) (ocf : List String)
      (ig : Bool) (q : String),
      get_insert_query t fs lang ocf ig = Except.ok q →
      q = validate_query (buildConflictQuery t fs (pyLower lang) ocf ig)) ∧
    (∀ (α : Type) (q : String) (exec : String → Except String α),
      (query_model q exec).1 = runStmts exec (pySplitSemi (validate_query q))) ∧
    get_insert_query "t" ["a,)b"] "sqlite" [] false =
      Except.ok "INSERT INTO t (\"a)b\") VALUES (?)" ∧
    (query_model "x,)y;z" (fun s => Except.ok s)).1 = Except.ok ["x)y", "z"] := by
  refine ⟨?_, ?_, ?_, ?_, ?_, by rfl, by rfl⟩
  · intro s
    exact stripCP_sublist s.data
  · intro s c hc
    exact stripCP_count c hc s.data
  · intro s h
    exact stripCP_no_cp s.data h
  · intro t fs lang ocf ig q h
    unfold get_insert_query get_insert_query_core at h
    by_cases hl : pyLower lang = "sqlite" ∨ pyLower lang = "postgresql"
    · rw [if_pos hl] at h
      injection h with h'
      exact h'.symm
    · rw [if_neg hl] at h
      exact absurd h (by simp)
  · intro α q exec
    rfl

/-- C5 witness: the patch properties applied at concrete inputs, discharging
the non-comma, artifact-free and successful-build hypotheses. -/
theorem validateQuery_patch_props_witness :
    ((')' : Char) ≠ ',' ∧
      List.count ')' (validate_query "a,)b").data = List.count ')' ("a,)b" : String).data) ∧
    (hasSubstrL ("a,)b" : String).data [',', ',', ')'] = false ∧
      hasSubstrL (validate_query "a,)b").data [',', ')'] = false) ∧
    (get_insert_query "t2" ["a"] "sqlite" [] false =
        Except.ok "INSERT INTO t2 (\"a\") VALUES (?)" ∧
      ("INSERT INTO t2 (\"a\") VALUES (?)" : String) =
        validate_query (buildConflictQuery "t2" ["a"] (pyLower "sqlite") [] false)) :=
  ⟨⟨by decide, validateQuery_patch_props.2.1 "a,)b" ')' (by decide)⟩,
    ⟨by decide, validateQuery_patch_props.2.2.1 "a,)b" (by decide)⟩,
    ⟨by rfl, validateQuery_patch_props.2.2.2.1 "t2" ["a"] "sqlite" [] false _ (by rfl)⟩⟩

end Databasepy

namespace Databasepy

/-- C6: every adapter operation balances its resource ledger on every
outcome: each opened session is closed (and, on the client-server insert
path, each opened cursor is closed), whether the injected backend outcome is
a success, an empty result, or an error. -/
theorem adapters_release_resources (α : Type) (e1 : Except String α) (q : String)
    (exec2 : String → Except String α) (e3 : Except String (List String))
    (values : List (List Scalar)) (qr : Except String String)
    (exec4 : String → Except String Unit) :
    (select_query_model e1).2.connCloses = (select_query_model e1).2.connOpens ∧
    (query_model q exec2).2.connCloses = (query_model q exec2).2.connOpens ∧
    (get_schema_model e3).2.connCloses = (get_schema_model e3).2.connOpens ∧
    (sqlite_insert values qr exec4).2.connCloses =
      (sqlite_insert values qr exec4).2.connOpens ∧
    (pg_insert values qr exec4).2.connCloses = (pg_insert values qr exec4).2.connOpens ∧
    (pg_insert values qr exec4).2.curCloses = (pg_insert values qr exec4).2.curOpens := by
  refine ⟨rfl, rfl, rfl, ?_, ?_, ?_⟩
  · unfold sqlite_insert
    rw [validate_insert_values_ok]
    cases qr <;> rfl
  · unfold pg_insert
    rw [validate_insert_values_ok]
    cases qr <;> rfl
  · unfold pg_insert
    rw [validate_insert_values_ok]
    cases qr <;> rfl

/-- C7: a file path whose last dot-separated extension has no registered
decoder makes `insert_file` fail with the unsupported-format error before any
read or insert happens: no loader is consulted and no insert pair is
produced. -/
theorem insertFile_unsupported_extension (α : Type)
    (loadCsv loadPkl loadParquet : String → α) (fp tbl : String)
    (h1 : lastExt fp ≠ "csv") (h2 : lastExt fp ≠ "pkl") (h3 : lastExt fp ≠ "parquet") :
    insert_file loadCsv loadPkl loadParquet fp tbl =
      Except.error ("Unsupported file extension: ." ++ lastExt fp) := by
  unfold insert_file read_table
  rw [if_neg h1, if_neg h2, if_neg h3]

/-- C7 witness: the unsupported-extension theorem applied to `data.txt`. -/
theorem insertFile_unsupported_extension_witness :
    (lastExt "data.txt" ≠ "csv" ∧ lastExt "data.txt" ≠ "pkl" ∧
      lastExt "data.txt" ≠ "parquet") ∧
    insert_file (fun _ => (0 : Nat)) (fun _ => 0) (fun _ => 0) "data.txt" "t" =
      Except.error ("Unsupported file extension: ." ++ lastExt "data.txt") :=
  ⟨⟨by decide, by decide, by decide⟩,
    insertFile_unsupported_extension Nat _ _ _ "data.txt" "t"
      (by decide) (by decide) (by decide)⟩

/-- C8 counterexample: with conflict fields and the unrecognized dialect
`mysql`, `get_insert_query` does not return a plain INSERT statement: it
fails with the invalid-dialect assertion error. -/
theorem getInsertQuery_unknown_dialect_conflict_counterexample :
    get_insert_query "t" ["a", "b"] "mysql" ["a"] false =
      Except.error "Valid languages are sqlite, postgresql" := by
  rfl

/-- C8 (amended): for conflict fields and an unrecognized dialect the call
raises the invalid-dialect error before the conflict-clause dispatch, so the
silently-omitting fallthrough branch of that dispatch is unreachable and no
statement is returned. -/
theorem getInsertQuery_unknown_dialect_conflict_errors
    (t : String) (fs : List String) (lang : String) (ocf : List String) (ig : Bool)
    (_hocf : ocf ≠ []) (h1 : pyLower lang ≠ "sqlite") (h2 : pyLower lang ≠ "postgresql") :
    ∃ m, get_insert_query t fs lang ocf ig = Except.error m := by
  refine ⟨"Valid languages are sqlite, postgresql", ?_⟩
  unfold get_insert_query get_insert_query_core
  rw [if_neg (by rintro (h | h) <;> [exact h1 h; exact h2 h])]

/-- C8 witness: the amended statement applied at the token `mysql` with a
non-empty conflict-field list. -/
theorem getInsertQuery_unknown_dialect_conflict_errors_witness :
    ((["a"] : List String) ≠ [] ∧ pyLower "mysql" ≠ "sqlite" ∧
      pyLower "mysql" ≠ "postgresql") ∧
    ∃ m, get_insert_query "t" ["a", "b"] "mysql" ["a"] true = Except.error m :=
  ⟨⟨by decide, by decide, by decide⟩,
    getInsertQuery_unknown_dialect_conflict_errors "t" ["a", "b"] "mysql" ["a"] true
      (by decide) (by decide) (by decide)⟩

/-- C10: dialect matching is case-insensitive: any token whose lowercase form
is recognized yields exactly the statement of the lowercase call, and the
call succeeds. -/
theorem getInsertQuery_dialect_case_insensitive
    (t : String) (fs : List String) (lang : String) (ocf : List String) (ig : Bool)
    (h : pyLower lang = "sqlite" ∨ pyLower lang = "postgresql") :
    get_insert_query t fs lang ocf ig = get_insert_query t fs (pyLower lang) ocf ig ∧
    ∃ q, get_insert_query t fs lang ocf ig = Except.ok q := by
  unfold get_insert_query
  rcases h with h | h
  · rw [h, pyLower_sqlite]
    refine ⟨rfl, ?_⟩
    unfold get_insert_query_core
    rw [if_pos (Or.inl rfl)]
    exact ⟨_, rfl⟩
  · rw [h, pyLower_pg]
    refine ⟨rfl, ?_⟩
    unfold get_insert_query_core
    rw [if_pos (Or.inr rfl)]
    exact ⟨_, rfl⟩

/-- C10 witness: the mixed-case tokens `SQLite` and `POSTGRESQL` give the
same statements as the lowercase tokens. -/
theorem getInsertQuery_dialect_case_insensitive_witness :
    ((pyLower "SQLite" = "sqlite" ∨ pyLower "SQLite" = "postgresql") ∧
      get_insert_query "t" ["a"] "SQLite" [] false =
        get_insert_query "t" ["a"] (pyLower "SQLite") [] false ∧
      ∃ q, get_insert_query "t" ["a"] "SQLite" [] false = Except.ok q) ∧
    ((pyLower "POSTGRESQL" = "sqlite" ∨ pyLower "POSTGRESQL" = "postgresql") ∧
      get_insert_query "t" ["a"] "POSTGRESQL" [] false =
        get_insert_query "t" ["a"] (pyLower "POSTGRESQL") [] false ∧
      ∃ q, get_insert_query "t" ["a"] "POSTGRESQL" [] false = Except.ok q) :=
  ⟨⟨Or.inl (by decide),
      getInsertQuery_dialect_case_insensitive "t" ["a"] "SQLite" [] false
        (Or.inl (by decide))⟩,
    ⟨Or.inr (by decide),
      getInsertQuery_dialect_case_insensitive "t" ["a"] "POSTGRESQL" [] false
        (Or.inr (by decide))⟩⟩

end Databasepy
